import Mathlib

/-!
Shallow embedding of the `ninja_crud` route-registration layer.

The embedding covers:
* `src/ninja_crud/views/abstract.py` : `AbstractModelView.__init__` (decorator list default);
* `src/ninja_crud/views/retrieve.py` : `RetrieveModelView` (`register_route`, `get_queryset`,
  `get_path`, and the `retrieve_model` handler body);
* `src/ninja_crud/views/viewset.py` : `ModelViewSetMeta` (`validate_model_class`, `__new__`)
  and `ModelViewSet.register_routes`.

Routers are modelled as the list of route-registration calls made on them, in order; a
registration method call appends one `RouteCall` record carrying the verb, path, response
schema, operation id, summary, keyword arguments and the (decorator-wrapped) handler.
Python classes passed through the metaclass are modelled as a name together with the
class-body attribute dictionary (`ownAttrs`) and the attributes inherited from the bases
(`baseAttrs`); attribute values are modelled by `PyVal`.  `getattr` looks up own attributes
first, then inherited ones, mirroring Python's MRO lookup for this two-level situation;
`dir()` is modelled as the sorted, duplicate-free list of the known attribute names, which
is how Python's `dir` presents them.

Handlers are first-order data (`Handler`); decorators are arbitrary functions
`Handler → Handler`.  Schemas are identified by numeric tags.  Database state, needed to
give the handler body semantics, is a function from model classes to their stored
`(primary key, instance)` rows; exceptions are modelled with `Except`, whose bind
propagates errors unchanged, exactly as Python exception propagation does in code that
installs no handler.  The `utils` module and `DeleteModelView` are not part of the given
sources; the definitions below that stand in for them are modelled from the spec and say
so in their doc comments.
-/

/-- A Django model class, identified by its `__name__`. -/
structure ModelClass where
  name : String
deriving DecidableEq

/-- A Django manager (`model_class.objects`). -/
structure Manager where
  model : ModelClass
deriving DecidableEq

/-- A queryset value: either the full queryset of a model's default manager, or an
explicit collection of `(pk, instance)` rows produced by a custom getter. -/
inductive QuerySet where
  | managerAll (model : ModelClass)
  | explicitRows (modelName : String) (rows : List (Nat × Nat))
deriving DecidableEq

/-- `model_class.objects`: the model's default manager. -/
def ModelClass.objects (m : ModelClass) : Manager := ⟨m⟩

/-- `manager.get_queryset()`: the manager's full queryset. -/
def Manager.get_queryset (mgr : Manager) : QuerySet := QuerySet.managerAll mgr.model

/-- A first-order handler value.  `retrieveBody s` is the body of the `retrieve_model`
closure built over output schema `s`; `deleteBody` the delete view's closure body;
`wrapped t h` a handler `h` wrapped by some decorator identified by tag `t` (used by
concrete decorator functions in examples). -/
inductive Handler where
  | retrieveBody (output_schema : Nat)
  | deleteBody
  | wrapped (tag : Nat) (inner : Handler)
deriving DecidableEq

/-- HTTP verbs of the router's registration methods. -/
inductive Verb where
  | get
  | post
  | put
  | patch
  | delete
deriving DecidableEq

/-- Values allowed in keyword-argument dictionaries passed to router methods. -/
inductive KwVal where
  | bool (b : Bool)
  | str (s : String)
  | nat (n : Nat)
deriving DecidableEq

/-- One route-registration call made on a router: verb, path, response schema tag,
operation id, summary, extra keyword arguments, and the registered handler. -/
structure RouteCall where
  verb : Verb
  path : String
  response : Option Nat
  operation_id : String
  summary : String
  kwargs : List (String × KwVal)
  handler : Handler
deriving DecidableEq

/-- A router, modelled by its route table: the list of registration calls, in order. -/
abbrev Router := List RouteCall

/-- `AbstractModelView.__init__`: a missing (`None`) decorator list defaults to `[]`. -/
def AbstractModelView.init_decorators (decorators : Option (List (Handler → Handler))) :
    List (Handler → Handler) :=
  match decorators with
  | none => []
  | some ds => ds

/-- The state of a constructed `RetrieveModelView`. -/
structure RetrieveView where
  output_schema : Nat
  queryset_getter : Option (Nat → QuerySet)
  decorators : List (Handler → Handler)

/-- `RetrieveModelView.__init__`. -/
def RetrieveModelView.new (output_schema : Nat) (queryset_getter : Option (Nat → QuerySet))
    (decorators : Option (List (Handler → Handler))) : RetrieveView :=
  ⟨output_schema, queryset_getter, AbstractModelView.init_decorators decorators⟩

/-- Modelled from the spec: the state of a constructed `DeleteModelView`, whose source is
not under `src/` (only its test is).  Per the spec, concrete views are structurally
identical to the Retrieve view; the test shows it is constructed with `router_kwargs`. -/
structure DeleteView where
  router_kwargs : List (String × KwVal)
  decorators : List (Handler → Handler)

/-- Modelled from the spec: `DeleteModelView.__init__`, sharing the decorator default of
`AbstractModelView.__init__`. -/
def DeleteModelView.new (router_kwargs : List (String × KwVal))
    (decorators : Option (List (Handler → Handler))) : DeleteView :=
  ⟨router_kwargs, AbstractModelView.init_decorators decorators⟩

/-- Helper for `to_snake_case`: every upper-case letter after the first character is
replaced by an underscore followed by its lower-case form. -/
def snakeTail : List Char → List Char
  | [] => []
  | c :: rest => (if c.isUpper then ['_', c.toLower] else [c]) ++ snakeTail rest

/-- Modelled from the spec: `utils.to_snake_case` is not under `src/`.  The spec describes
it as identifier-style case conversion, PascalCase/camelCase model name to a snake_case
token for operation ids. -/
def to_snake_case (s : String) : String :=
  match s.toList with
  | [] => s
  | c :: rest => String.mk (c.toLower :: snakeTail rest)

/-- Modelled from the spec: `utils.merge_decorators` is not under `src/`.  The spec
describes it as decorator-list composition, applying a sequence of wrapping functions to
a handler in order. -/
def merge_decorators (decorators : List (Handler → Handler)) (func : Handler) : Handler :=
  decorators.foldl (fun f d => d f) func

/-- `RetrieveModelView.get_path`. -/
def RetrieveModelView.get_path (_ : RetrieveView) : String := "/{id}"

/-- The single route-registration call `RetrieveModelView.register_route` makes on
`router.get`: fields in `RouteCall` order (verb, path, response, operation id, summary,
kwargs, handler). -/
def RetrieveModelView.routeCall (self : RetrieveView) (model_class : ModelClass) : RouteCall :=
  ⟨Verb.get,
   RetrieveModelView.get_path self,
   some self.output_schema,
   ("retrieve_") ++ to_snake_case model_class.name,
   ("Retrieve ") ++ model_class.name,
   [],
   merge_decorators self.decorators (Handler.retrieveBody self.output_schema)⟩

/-- `RetrieveModelView.register_route`: one `router.get(...)` call.  The path-parameter
type chosen by `utils.get_id_type` does not affect the route table and is not modelled. -/
def RetrieveModelView.register_route (self : RetrieveView) (router : Router)
    (model_class : ModelClass) : Router :=
  router ++ [RetrieveModelView.routeCall self model_class]

/-- `RetrieveModelView.get_queryset`. -/
def RetrieveModelView.get_queryset (self : RetrieveView) (model_class : ModelClass)
    (id : Nat) : QuerySet :=
  match self.queryset_getter with
  | none => Manager.get_queryset (ModelClass.objects model_class)
  | some getter => getter id

/-- Modelled from the spec: `DeleteModelView.get_path`; the delete route is bound to the
same by-id path template as the retrieve route. -/
def DeleteModelView.get_path (_ : DeleteView) : String := "/{id}"

/-- Modelled from the spec: the single call `DeleteModelView.register_route` makes on
`router.delete`, carrying the configured `router_kwargs` verbatim. -/
def DeleteModelView.routeCall (self : DeleteView) (model_class : ModelClass) : RouteCall :=
  ⟨Verb.delete,
   DeleteModelView.get_path self,
   none,
   ("delete_") ++ to_snake_case model_class.name,
   ("Delete ") ++ model_class.name,
   self.router_kwargs,
   merge_decorators self.decorators Handler.deleteBody⟩

/-- Modelled from the spec: `DeleteModelView.register_route`, one `router.delete(...)`
call (spec: each concrete view registers one HTTP verb at a fixed path template, keyword
configuration passed through verbatim). -/
def DeleteModelView.register_route (self : DeleteView) (router : Router)
    (model_class : ModelClass) : Router :=
  router ++ [DeleteModelView.routeCall self model_class]

/-- Database state: the stored `(pk, instance)` rows of each model class. -/
structure DB where
  rowsOf : ModelClass → List (Nat × Nat)

/-- Django ORM exceptions that `QuerySet.get` can raise. -/
inductive DjangoError where
  | doesNotExist (modelName : String)
  | multipleObjectsReturned (modelName : String)
deriving DecidableEq

/-- The model name a queryset reports in its exceptions. -/
def QuerySet.modelName : QuerySet → String
  | QuerySet.managerAll m => m.name
  | QuerySet.explicitRows n _ => n

/-- The rows a queryset denotes under a database state. -/
def QuerySet.rows (qs : QuerySet) (db : DB) : List (Nat × Nat) :=
  match qs with
  | QuerySet.managerAll m => db.rowsOf m
  | QuerySet.explicitRows _ rs => rs

/-- `queryset.get(pk=pk)`: the unique matching row, `DoesNotExist` when there is none,
`MultipleObjectsReturned` when there are several. -/
def QuerySet.get (qs : QuerySet) (db : DB) (pk : Nat) : Except DjangoError Nat :=
  match (qs.rows db).filter (fun r => decide (r.1 = pk)) with
  | [] => Except.error (DjangoError.doesNotExist qs.modelName)
  | [r] => Except.ok r.2
  | _ => Except.error (DjangoError.multipleObjectsReturned qs.modelName)

/-- `HTTPStatus.OK`. -/
def httpStatusOK : Nat := 200

/-- The body of the `retrieve_model` handler closure in
`RetrieveModelView.register_route`: resolve the queryset, look the instance up by primary
key, and return `(HTTPStatus.OK, instance)`.  There is no local exception handling: the
error branch returns the lookup's exception unchanged. -/
def retrieve_model (self : RetrieveView) (model_class : ModelClass) (db : DB)
    (id : Nat) : Except DjangoError (Nat × Nat) :=
  let queryset := RetrieveModelView.get_queryset self model_class id
  match queryset.get db id with
  | Except.error e => Except.error e
  | Except.ok inst => Except.ok (httpStatusOK, inst)

/-- A view instance found among a ViewSet's attributes. -/
inductive ModelView where
  | retrieve (v : RetrieveView)
  | delete (v : DeleteView)

/-- Dispatch of `register_route` over the concrete view kinds. -/
def ModelView.register_route (v : ModelView) (router : Router)
    (model_class : ModelClass) : Router :=
  match v with
  | ModelView.retrieve rv => RetrieveModelView.register_route rv router model_class
  | ModelView.delete dv => DeleteModelView.register_route dv router model_class

/-- The one registration call a view makes for a model class. -/
def ModelView.routeCall (v : ModelView) (model_class : ModelClass) : RouteCall :=
  match v with
  | ModelView.retrieve rv => RetrieveModelView.routeCall rv model_class
  | ModelView.delete dv => DeleteModelView.routeCall dv model_class

/-- A Python type object as it can appear as an attribute value: a model class
(a `type` that is a subclass of `django.db.models.Model`) or some other type. -/
inductive PyType where
  | modelClass (m : ModelClass)
  | otherType (tag : Nat)

/-- A Python attribute value: an `AbstractModelView` instance, a type object, or any
other value. -/
inductive PyVal where
  | view (v : ModelView)
  | typ (t : PyType)
  | other (tag : Nat)

/-- Lookup in an attribute dictionary (keys are unique in a Python class body). -/
def findAttr : List (String × PyVal) → String → Option PyVal
  | [], _ => none
  | (n, v) :: rest, target => if n = target then some v else findAttr rest target

/-- A class produced by `ModelViewSetMeta`: its name, its own class-body attributes, and
the attributes it inherits from its bases. -/
structure ViewSetCls where
  name : String
  ownAttrs : List (String × PyVal)
  baseAttrs : List (String × PyVal)

/-- Python attribute lookup (`getattr`): the class body first, then the bases. -/
def ViewSetCls.getattr (c : ViewSetCls) (attr : String) : Option PyVal :=
  match findAttr c.ownAttrs attr with
  | some v => some v
  | none => findAttr c.baseAttrs attr

/-- Whether an attribute-lookup result is a type that subclasses `Model` (the property
`ModelViewSetMeta.validate_model_class` checks); a missing attribute is not. -/
def isModelClassVal : Option PyVal → Bool
  | some (PyVal.view _) => false
  | some (PyVal.typ (PyType.modelClass _)) => true
  | some (PyVal.typ (PyType.otherType _)) => false
  | some (PyVal.other _) => false
  | none => false

/-- `ModelViewSetMeta.validate_model_class`: `ValueError` when the `model_class`
attribute is missing (`hasattr` is false) or is not a type subclassing `Model`. -/
def ModelViewSetMeta.validate_model_class (new_cls : ViewSetCls) : Except String Unit :=
  match ViewSetCls.getattr new_cls ("model_class") with
  | none => Except.error (new_cls.name ++ (".model_class class attribute must be set"))
  | some v =>
    match v with
    | PyVal.typ (PyType.modelClass _) => Except.ok ()
    | _ =>
      Except.error
        (new_cls.name ++ (".model_class must be a subclass of django.db.models.Model"))

/-- `ModelViewSetMeta.__new__(mcs, name, bases, attrs)`: build the class, and validate it
unless its name is the literal string of the base class. -/
def ModelViewSetMeta.new (name : String) (baseAttrs attrs : List (String × PyVal)) :
    Except String ViewSetCls :=
  let new_cls : ViewSetCls := ⟨name, attrs, baseAttrs⟩
  if name ≠ ("ModelViewSet") then
    match ModelViewSetMeta.validate_model_class new_cls with
    | Except.error e => Except.error e
    | Except.ok _ => Except.ok new_cls
  else
    Except.ok new_cls

/-- Whether class creation succeeded. -/
def exceptIsOk : Except String ViewSetCls → Bool
  | Except.ok _ => true
  | Except.error _ => false

/-- Lexicographic comparison of character lists by code point, the order in which
Python's `dir` presents attribute names. -/
def charListLe : List Char → List Char → Bool
  | [], _ => true
  | _ :: _, [] => false
  | a :: as, b :: bs =>
    if a.toNat < b.toNat then true
    else if b.toNat < a.toNat then false
    else charListLe as bs

/-- Alphabetical (code-point lexicographic) comparison of strings. -/
def strLe (a b : String) : Bool := charListLe a.data b.data

instance : IsTotal String (fun a b => strLe a b = true) :=
  ⟨by
    have key : ∀ as bs : List Char, charListLe as bs = true ∨ charListLe bs as = true := by
      intro as
      induction as with
      | nil => intro bs; left; rfl
      | cons a as ih =>
        intro bs
        cases bs with
        | nil => right; rfl
        | cons b bs =>
          rcases Nat.lt_trichotomy a.toNat b.toNat with h | h | h
          · left; simp [charListLe, h]
          · rcases ih bs with h2 | h2
            · left; simp [charListLe, h, h2]
            · right; simp [charListLe, h, h2]
          · right; simp [charListLe, h]
    intro a b
    exact key a.data b.data⟩

instance : IsTrans String (fun a b => strLe a b = true) :=
  ⟨by
    have key : ∀ as bs cs : List Char,
        charListLe as bs = true → charListLe bs cs = true → charListLe as cs = true := by
      intro as
      induction as with
      | nil => intro bs cs _ _; rfl
      | cons a as ih =>
        intro bs cs h1 h2
        cases bs with
        | nil => exact absurd h1 (by simp [charListLe])
        | cons b bs =>
          cases cs with
          | nil => exact absurd h2 (by simp [charListLe])
          | cons c cs =>
            simp only [charListLe] at h1 h2 ⊢
            rcases Nat.lt_trichotomy a.toNat b.toNat with hab | hab | hab
            · rcases Nat.lt_trichotomy b.toNat c.toNat with hbc | hbc | hbc
              · simp [Nat.lt_trans hab hbc]
              · have hac : a.toNat < c.toNat := by omega
                simp [hac]
              · rw [if_neg (by omega), if_pos hbc] at h2
                exact absurd h2 (by simp)
            · rw [if_neg (by omega), if_neg (by omega)] at h1
              rcases Nat.lt_trichotomy b.toNat c.toNat with hbc | hbc | hbc
              · have hac : a.toNat < c.toNat := by omega
                simp [hac]
              · rw [if_neg (by omega), if_neg (by omega)] at h2
                rw [if_neg (by omega), if_neg (by omega)]
                exact ih bs cs h1 h2
              · rw [if_neg (by omega), if_pos hbc] at h2
                exact absurd h2 (by simp)
            · rw [if_neg (by omega), if_pos hab] at h1
              exact absurd h1 (by simp)
    intro a b c
    exact key a.data b.data c.data⟩

/-- `dir(cls)`: the sorted, duplicate-free list of the class's attribute names, own and
inherited. -/
def ViewSetCls.dirList (c : ViewSetCls) : List String :=
  List.insertionSort (fun a b => strLe a b = true)
    (List.dedup (c.ownAttrs.map Prod.fst ++ c.baseAttrs.map Prod.fst))

/-- `cls.model_class`, as the model class it must hold on a validated class; `none` when
the attribute is missing or not a model class. -/
def ViewSetCls.model_class (c : ViewSetCls) : Option ModelClass :=
  match ViewSetCls.getattr c ("model_class") with
  | some (PyVal.typ (PyType.modelClass m)) => some m
  | _ => none

/-- The body of the `register_routes` loop for one attribute name: look the attribute up,
and when it is an `AbstractModelView` instance, call
`attr_value.register_route(router, cls.model_class)`; accessing a missing or unusable
`cls.model_class` is an error. -/
def registerStep (cls : ViewSetCls) (r : Router) (attr_name : String) :
    Except String Router :=
  match ViewSetCls.getattr cls attr_name with
  | some (PyVal.view attr_value) =>
    match ViewSetCls.model_class cls with
    | some m => Except.ok (ModelView.register_route attr_value r m)
    | none => Except.error (cls.name ++ (" has no usable model_class attribute"))
  | _ => Except.ok r

/-- `ModelViewSet.register_routes(router)`: iterate `dir(cls)` and register every
`AbstractModelView`-valued attribute with the class's `model_class`. -/
def ModelViewSet.register_routes (cls : ViewSetCls) (router : Router) :
    Except String Router :=
  List.foldlM (registerStep cls) router (ViewSetCls.dirList cls)

/-- The view held by an attribute name, when there is one. -/
def viewOfAttr (c : ViewSetCls) (n : String) : Option ModelView :=
  match ViewSetCls.getattr c n with
  | some (PyVal.view v) => some v
  | _ => none

/-- The views `register_routes` finds, in the order it visits them. -/
def registered_views (c : ViewSetCls) : List ModelView :=
  (ViewSetCls.dirList c).filterMap (viewOfAttr c)

/-- Whether an attribute name holds an `AbstractModelView` instance. -/
def isViewAttr (c : ViewSetCls) (n : String) : Bool :=
  match ViewSetCls.getattr c n with
  | some (PyVal.view _) => true
  | _ => false

/-- The route calls one `register_routes` pass adds to a router. -/
def routeTrace (c : ViewSetCls) (m : ModelClass) : List RouteCall :=
  (registered_views c).map (fun v => ModelView.routeCall v m)

/-- A concrete model class for the concrete instances below. -/
def exModel : ModelClass := ⟨"Collection"⟩

/-- A retrieve view with the default queryset getter and no decorators. -/
def exRetrieve : RetrieveView := RetrieveModelView.new 10 none none

/-- A custom queryset getter. -/
def exGetter : Nat → QuerySet := fun id => QuerySet.explicitRows ("Collection") [(id, 7)]

/-- A retrieve view configured with the custom getter. -/
def exRetrieveCustom : RetrieveView := RetrieveModelView.new 10 (some exGetter) none

/-- A ViewSet class declaring one retrieve view and its model class. -/
def exSet : ViewSetCls :=
  ⟨"CollectionViewSet",
   [(("detail"), PyVal.view (ModelView.retrieve exRetrieve)),
    (("model_class"), PyVal.typ (PyType.modelClass exModel))],
   []⟩

/-- A retrieve view declared on a base class. -/
def exBaseRetrieve : RetrieveView := RetrieveModelView.new 11 none none

/-- A ViewSet subclass that inherits a view from its base and shadows the base's
model class with its own. -/
def exChildSet : ViewSetCls :=
  ⟨"ItemViewSet",
   [(("model_class"), PyVal.typ (PyType.modelClass exModel))],
   [(("detail"), PyVal.view (ModelView.retrieve exBaseRetrieve)),
    (("model_class"), PyVal.typ (PyType.modelClass ⟨"Legacy"⟩))]⟩

/-- A database with no rows at all. -/
def dbEmpty : DB := ⟨fun _ => []⟩

/-- A database in which every model has exactly the row `(1, 42)`. -/
def dbOne : DB := ⟨fun _ => [(1, 42)]⟩

theorem ModelView.register_route_eq (v : ModelView) (r : Router) (m : ModelClass) :
    ModelView.register_route v r m = r ++ [ModelView.routeCall v m] := by
  cases v <;> rfl

theorem registerStep_eq (c : ViewSetCls) (m : ModelClass)
    (h : ViewSetCls.model_class c = some m) (r : Router) (n : String) :
    registerStep c r n
      = Except.ok (r ++ ((viewOfAttr c n).toList).map (fun v => ModelView.routeCall v m)) := by
  unfold registerStep viewOfAttr
  cases hg : ViewSetCls.getattr c n with
  | none => simp
  | some pv =>
    cases pv with
    | view v => rw [h]; simp [ModelView.register_route_eq]
    | typ t => simp
    | other t => simp

theorem foldlM_registerStep (c : ViewSetCls) (m : ModelClass)
    (h : ViewSetCls.model_class c = some m) :
    ∀ (names : List String) (router : Router),
      List.foldlM (registerStep c) router names
        = Except.ok
            (router ++ (names.filterMap (viewOfAttr c)).map (fun v => ModelView.routeCall v m)) := by
  intro names
  induction names with
  | nil => intro router; simp; rfl
  | cons n rest ih =>
    intro router
    rw [List.foldlM_cons, registerStep_eq c m h router n]
    show List.foldlM (registerStep c)
        (router ++ ((viewOfAttr c n).toList).map (fun v => ModelView.routeCall v m)) rest = _
    rw [ih]
    cases hv : viewOfAttr c n <;> simp [List.filterMap_cons, hv]

theorem findAttr_mem {l : List (String × PyVal)} {n : String} {v : PyVal}
    (h : findAttr l n = some v) : n ∈ l.map Prod.fst := by
  induction l with
  | nil => exact absurd h (by simp [findAttr])
  | cons p rest ih =>
    cases p with
    | mk pn pv =>
      by_cases hn : pn = n
      · simp [hn]
      · simp only [findAttr, if_neg hn] at h
        simp [ih h]

theorem getattr_mem_dirList {c : ViewSetCls} {n : String} {v : PyVal}
    (h : ViewSetCls.getattr c n = some v) : n ∈ ViewSetCls.dirList c := by
  unfold ViewSetCls.dirList
  rw [List.mem_insertionSort, List.mem_dedup, List.mem_append]
  unfold ViewSetCls.getattr at h
  cases hf : findAttr c.ownAttrs n with
  | some w => exact Or.inl (findAttr_mem hf)
  | none => rw [hf] at h; exact Or.inr (findAttr_mem h)

theorem dirList_nodup (c : ViewSetCls) : (ViewSetCls.dirList c).Nodup := by
  unfold ViewSetCls.dirList
  exact ((List.perm_insertionSort _ _).nodup_iff).mpr (List.nodup_dedup _)

/-- C1: a class created through `ModelViewSetMeta` whose name is not the base class's and
whose `model_class` attribute is missing, or present but not a type subclassing `Model`,
fails to be created: `__new__` raises immediately, so no instance of the invalid class
can ever be created. -/
theorem invalid_model_class_fails (name : String) (baseAttrs attrs : List (String × PyVal))
    (h1 : name ≠ ("ModelViewSet"))
    (h2 : isModelClassVal (ViewSetCls.getattr ⟨name, attrs, baseAttrs⟩ ("model_class"))
            = false) :
    exceptIsOk (ModelViewSetMeta.new name baseAttrs attrs) = false := by
  simp only [ModelViewSetMeta.new]
  rw [if_pos h1]
  unfold ModelViewSetMeta.validate_model_class
  cases hg : ViewSetCls.getattr ⟨name, attrs, baseAttrs⟩ ("model_class") with
  | none => rfl
  | some v =>
    cases v with
    | view w => rfl
    | typ t =>
      cases t with
      | modelClass mc => rw [hg] at h2; exact absurd h2 (by simp [isModelClassVal])
      | otherType tag => rfl
    | other tag => rfl

/-- Witness for C1: creating the class `UserViewSet` with no attributes at all fails. -/
theorem invalid_model_class_fails_witness :
    exceptIsOk (ModelViewSetMeta.new ("UserViewSet") [] []) = false :=
  invalid_model_class_fails ("UserViewSet") [] [] (by decide) rfl

/-- C9: the metaclass decides whether to validate solely by comparing the class name with
the literal string of the base class: creation succeeds exactly when the class is named
that string (validation skipped entirely, however invalid `model_class` is) or
`validate_model_class` passes. -/
theorem validation_iff_not_base_name (name : String)
    (baseAttrs attrs : List (String × PyVal)) :
    (∃ cls, ModelViewSetMeta.new name baseAttrs attrs = Except.ok cls)
      ↔ (name = ("ModelViewSet")
          ∨ ModelViewSetMeta.validate_model_class ⟨name, attrs, baseAttrs⟩
              = Except.ok ()) := by
  simp only [ModelViewSetMeta.new]
  by_cases hn : name = ("ModelViewSet")
  · simp [hn]
  · rw [if_pos hn]
    cases hv : ModelViewSetMeta.validate_model_class ⟨name, attrs, baseAttrs⟩ with
    | error e => simp [hn]
    | ok u => cases u; simp [hn]

/-- C2: `register_routes` invokes `register_route` exactly once for every class attribute
holding an `AbstractModelView` instance — each call with the class's shared
`model_class` — and for no other attribute: the registered trace is one `routeCall` per
found view, and the visited view-attribute names are duplicate-free and are exactly the
view-valued attribute names. -/
theorem register_routes_once_per_view_attr (c : ViewSetCls) (m : ModelClass)
    (router : Router) (h : ViewSetCls.model_class c = some m) :
    ModelViewSet.register_routes c router
        = Except.ok (router ++ (registered_views c).map (fun v => ModelView.routeCall v m))
    ∧ ((ViewSetCls.dirList c).filter (fun n => isViewAttr c n)).Nodup
    ∧ ∀ n : String,
        (n ∈ (ViewSetCls.dirList c).filter (fun n2 => isViewAttr c n2))
          ↔ isViewAttr c n = true := by
  refine ⟨?_, (dirList_nodup c).filter _, ?_⟩
  · unfold ModelViewSet.register_routes registered_views
    exact foldlM_registerStep c m h (ViewSetCls.dirList c) router
  · intro n
    constructor
    · intro hmem
      exact (List.mem_filter.mp hmem).2
    · intro hv
      rw [List.mem_filter]
      refine ⟨?_, hv⟩
      unfold isViewAttr at hv
      cases hg : ViewSetCls.getattr c n with
      | none => rw [hg] at hv; simp at hv
      | some pv => exact getattr_mem_dirList hg

/-- Witness for C2: registering the example ViewSet on an empty router appends one
route call per found view, with the ViewSet's model class. -/
theorem register_routes_once_witness :
    ModelViewSet.register_routes exSet []
      = Except.ok
          ([] ++ (registered_views exSet).map (fun v => ModelView.routeCall v exModel)) :=
  (register_routes_once_per_view_attr exSet exModel [] rfl).1

/-- C3: `RetrieveModelView.register_route` makes exactly one registration call on the
router: a GET at the path returned by `get_path()` (the by-id template), with the
configured output schema as response, operation id `retrieve_` followed by the
snake-cased model name, and summary `Retrieve ` followed by the model name. -/
theorem retrieve_register_route_one_get (self : RetrieveView) (router : Router)
    (model_class : ModelClass) :
    ∃ call : RouteCall,
      RetrieveModelView.register_route self router model_class = router ++ [call]
      ∧ call.verb = Verb.get
      ∧ call.path = RetrieveModelView.get_path self
      ∧ RetrieveModelView.get_path self = ("/{id}")
      ∧ call.response = some self.output_schema
      ∧ call.operation_id = ("retrieve_") ++ to_snake_case model_class.name
      ∧ call.summary = ("Retrieve ") ++ model_class.name :=
  ⟨RetrieveModelView.routeCall self model_class, rfl, rfl, rfl, rfl, rfl, rfl, rfl⟩

/-- C4: `get_queryset` returns the model's default manager's queryset when no custom
`queryset_getter` was supplied, and otherwise the result of calling the supplied getter
with the identifier. -/
theorem get_queryset_default_or_getter (self : RetrieveView) (model_class : ModelClass)
    (id : Nat) :
    (self.queryset_getter = none →
        RetrieveModelView.get_queryset self model_class id
          = Manager.get_queryset (ModelClass.objects model_class))
    ∧ ∀ getter : Nat → QuerySet,
        self.queryset_getter = some getter →
        RetrieveModelView.get_queryset self model_class id = getter id := by
  constructor
  · intro h
    unfold RetrieveModelView.get_queryset
    rw [h]
  · intro getter h
    unfold RetrieveModelView.get_queryset
    rw [h]

/-- Witness for C4: the default-getter view uses the default manager's queryset; the
custom-getter view delegates to the getter with the identifier. -/
theorem get_queryset_witness :
    RetrieveModelView.get_queryset exRetrieve exModel 3
        = Manager.get_queryset (ModelClass.objects exModel)
    ∧ RetrieveModelView.get_queryset exRetrieveCustom exModel 3 = exGetter 3 :=
  ⟨(get_queryset_default_or_getter exRetrieve exModel 3).1 rfl,
   (get_queryset_default_or_getter exRetrieveCustom exModel 3).2 exGetter rfl⟩

/-- C5: the `retrieve_model` handler body contains no local error handling: a failing
primary-key lookup's exception is propagated unchanged, and a successful lookup returns
HTTP status 200 together with the matched instance. -/
theorem retrieve_model_handler_spec (self : RetrieveView) (model_class : ModelClass)
    (db : DB) (id : Nat) :
    httpStatusOK = 200
    ∧ (∀ e : DjangoError,
        QuerySet.get (RetrieveModelView.get_queryset self model_class id) db id
            = Except.error e →
        retrieve_model self model_class db id = Except.error e)
    ∧ ∀ inst : Nat,
        QuerySet.get (RetrieveModelView.get_queryset self model_class id) db id
            = Except.ok inst →
        retrieve_model self model_class db id = Except.ok (httpStatusOK, inst) := by
  refine ⟨rfl, ?_, ?_⟩
  · intro e he
    simp only [retrieve_model]
    rw [he]
  · intro inst hi
    simp only [retrieve_model]
    rw [hi]

/-- Witness for C5: with no matching row the handler returns the `DoesNotExist` error of
the lookup unchanged; with the row `(1, 42)` present it returns `(200, 42)`. -/
theorem retrieve_model_handler_witness :
    retrieve_model exRetrieve exModel dbEmpty 1
        = Except.error (DjangoError.doesNotExist ("Collection"))
    ∧ retrieve_model exRetrieve exModel dbOne 1 = Except.ok (httpStatusOK, 42) :=
  ⟨(retrieve_model_handler_spec exRetrieve exModel dbEmpty 1).2.1
      (DjangoError.doesNotExist ("Collection")) rfl,
   (retrieve_model_handler_spec exRetrieve exModel dbOne 1).2.2 42 rfl⟩

/-- C6: the decorators supplied at construction are applied to the generated handler in
declared list order when the route is registered: the installed handler is exactly
`merge_decorators` of the decorator list over the closure body, and `merge_decorators`
satisfies the in-order composition laws (empty list is the identity; the decorator
appended last to the list is applied last, outermost). -/
theorem decorators_applied_in_order (self : RetrieveView) (router : Router)
    (model_class : ModelClass) :
    (∃ call : RouteCall,
        RetrieveModelView.register_route self router model_class = router ++ [call]
        ∧ call.handler
            = merge_decorators self.decorators (Handler.retrieveBody self.output_schema))
    ∧ (∀ h : Handler, merge_decorators [] h = h)
    ∧ ∀ (ds : List (Handler → Handler)) (d : Handler → Handler) (h : Handler),
        merge_decorators (ds ++ [d]) h = d (merge_decorators ds h) := by
  refine ⟨⟨RetrieveModelView.routeCall self model_class, rfl, rfl⟩, fun h => rfl, ?_⟩
  intro ds d h
  unfold merge_decorators
  rw [List.foldl_append]
  rfl

/-- C7: `DeleteModelView.register_route` results in exactly one call to the router's
delete-registration method, and that call's keyword arguments are the `router_kwargs`
supplied to the view constructor, verbatim (the constructor stores them unchanged). -/
theorem delete_register_route_kwargs_verbatim (self : DeleteView) (router : Router)
    (model_class : ModelClass) :
    (∃ call : RouteCall,
        DeleteModelView.register_route self router model_class = router ++ [call]
        ∧ call.verb = Verb.delete
        ∧ call.kwargs = self.router_kwargs)
    ∧ ((DeleteModelView.register_route self router model_class).filter
          (fun c2 => decide (c2.verb = Verb.delete))).length
        = ((router.filter (fun c2 => decide (c2.verb = Verb.delete))).length) + 1
    ∧ ∀ (ks : List (String × KwVal)) (ds : Option (List (Handler → Handler))),
        (DeleteModelView.new ks ds).router_kwargs = ks := by
  refine ⟨⟨DeleteModelView.routeCall self model_class, rfl, rfl, rfl⟩, ?_,
    fun ks ds => rfl⟩
  unfold DeleteModelView.register_route
  rw [List.filter_append, List.length_append]
  simp [DeleteModelView.routeCall]

/-- C8: `register_routes` is not idempotent: on a ViewSet holding at least one view, a
second call on the same router appends the same non-empty route trace again, duplicating
every route, with no detection or protection. -/
theorem register_routes_not_idempotent (c : ViewSetCls) (m : ModelClass) (router : Router)
    (h : ViewSetCls.model_class c = some m) (hne : registered_views c ≠ []) :
    routeTrace c m ≠ []
    ∧ ModelViewSet.register_routes c router = Except.ok (router ++ routeTrace c m)
    ∧ (ModelViewSet.register_routes c router >>= fun r1 =>
          ModelViewSet.register_routes c r1)
        = Except.ok (router ++ routeTrace c m ++ routeTrace c m) := by
  have h1 : ∀ r : Router,
      ModelViewSet.register_routes c r = Except.ok (r ++ routeTrace c m) := by
    intro r
    unfold ModelViewSet.register_routes routeTrace registered_views
    exact foldlM_registerStep c m h (ViewSetCls.dirList c) r
  refine ⟨?_, h1 router, ?_⟩
  · unfold routeTrace
    intro hcon
    exact hne (by simpa using congrArg List.length hcon)
  · rw [h1 router]
    show ModelViewSet.register_routes c (router ++ routeTrace c m)
        = Except.ok (router ++ routeTrace c m ++ routeTrace c m)
    rw [h1 (router ++ routeTrace c m)]

/-- Witness for C8: registering the example ViewSet twice on an empty router appends its
non-empty route trace twice. -/
theorem register_routes_not_idem_witness :
    routeTrace exSet exModel ≠ []
    ∧ ModelViewSet.register_routes exSet [] = Except.ok ([] ++ routeTrace exSet exModel)
    ∧ (ModelViewSet.register_routes exSet [] >>= fun r1 =>
          ModelViewSet.register_routes exSet r1)
        = Except.ok ([] ++ routeTrace exSet exModel ++ routeTrace exSet exModel) :=
  register_routes_not_idempotent exSet exModel [] rfl
    (fun hcon => absurd (congrArg List.length hcon) (by decide))

/-- C10: `register_routes` enumerates attributes with `dir()`, whose name list is sorted
alphabetically (so views are visited in attribute-name order, not declaration order), and
views inherited from base classes are found too and registered with the subclass's
`model_class`. -/
theorem dir_alphabetical_and_inherited (c : ViewSetCls) :
    List.Sorted (fun a b => strLe a b = true) (ViewSetCls.dirList c)
    ∧ (∀ (n : String) (v : ModelView),
        findAttr c.ownAttrs n = none →
        findAttr c.baseAttrs n = some (PyVal.view v) →
        v ∈ registered_views c)
    ∧ ∀ (m : ModelClass) (n : String) (v : ModelView),
        ViewSetCls.model_class c = some m →
        findAttr c.ownAttrs n = none →
        findAttr c.baseAttrs n = some (PyVal.view v) →
        ModelView.routeCall v m ∈ routeTrace c m := by
  have key : ∀ (n : String) (v : ModelView),
      findAttr c.ownAttrs n = none →
      findAttr c.baseAttrs n = some (PyVal.view v) →
      v ∈ registered_views c := by
    intro n v h1 h2
    have hg : ViewSetCls.getattr c n = some (PyVal.view v) := by
      simp only [ViewSetCls.getattr, h1, h2]
    unfold registered_views
    rw [List.mem_filterMap]
    exact ⟨n, getattr_mem_dirList hg, by unfold viewOfAttr; rw [hg]⟩
  refine ⟨List.sorted_insertionSort _ _, key, ?_⟩
  intro m n v hm h1 h2
  unfold routeTrace
  exact List.mem_map_of_mem _ (key n v h1 h2)

/-- Witness for C10: the view inherited from the base class of the example subclass is
found by registration, and its route call — made with the subclass's model class, which
shadows the base's — is part of the subclass's route trace. -/
theorem dir_alphabetical_witness :
    ModelView.retrieve exBaseRetrieve ∈ registered_views exChildSet
    ∧ ModelView.routeCall (ModelView.retrieve exBaseRetrieve) exModel
        ∈ routeTrace exChildSet exModel :=
  ⟨(dir_alphabetical_and_inherited exChildSet).2.1 ("detail")
      (ModelView.retrieve exBaseRetrieve) rfl rfl,
   (dir_alphabetical_and_inherited exChildSet).2.2 exModel ("detail")
      (ModelView.retrieve exBaseRetrieve) rfl rfl rfl⟩
